import Mathlib

/-!
Verification of the Mandelbrot fractal engine (fractal_engine.py) and the
color palette system (color_palette.py).

The iteration engine and viewport arithmetic are embedded over `ℚ`
(idealizing IEEE doubles by exact arithmetic), so that concrete runs can be
evaluated by `decide`.  The adaptive-iteration formula and the palette
formulas use `log10`, `sin` and `sqrt`, so they are embedded over `ℝ`.
Complex numbers are embedded as pairs `ℚ × ℚ`; the divergence test
`abs(z) > 2.0` is embedded as `4 < normSq z` and the periodicity test
`abs(z) < 1e-10` as `normSq z < 1/10^20`, which are equivalent under exact
arithmetic since both sides are nonnegative.
-/

namespace Mandelbrot

/-- Python `int(x)` on a float: truncation toward zero. -/
noncomputable def pyint (x : ℝ) : ℤ := if 0 ≤ x then ⌊x⌋ else ⌈x⌉

/-- Python `x % 1.0` on floats (floored modulus): the fractional part. -/
noncomputable def pymod1 (x : ℝ) : ℝ := x - ⌊x⌋

/-- The `max(0, min(255, v))` channel clamp applied by the palette functions. -/
def pyclamp (v : ℤ) : ℤ := max 0 (min 255 v)

/-- Squared modulus of a complex number represented as a pair. -/
def normSq (z : ℚ × ℚ) : ℚ := z.1 * z.1 + z.2 * z.2

/-- One Mandelbrot update `z*z + c` on pair-encoded complex numbers. -/
def mandelStep (z c : ℚ × ℚ) : ℚ × ℚ :=
  (z.1 * z.1 - z.2 * z.2 + c.1, 2 * (z.1 * z.2) + c.2)

/-- Outcome of the per-pixel loop in `mandelbrot_calculation`:
either the divergence test `abs(z) > 2.0` succeeded at iteration index `n`,
or the periodicity shortcut `n > 20 and abs(z) < 1e-10` fired at index `n`,
or the loop ran out of iterations (`for ... else` branch). -/
inductive MandelOutcome where
  | escaped (n : ℕ)
  | periodic (n : ℕ)
  | completed
deriving DecidableEq, Repr

/-- The per-pixel loop `for n in range(max_iter): ...` of
`mandelbrot_calculation`, with `fuel` the number of remaining loop
iterations and `n` the current iteration index. -/
def mandelLoop (c : ℚ × ℚ) : ℕ → ℕ → ℚ × ℚ → MandelOutcome
  | 0, _, _ => .completed
  | fuel + 1, n, z =>
    if 4 < normSq z then .escaped n
    else
      let z2 := mandelStep z c
      if 20 < n ∧ normSq z2 < 1 / 10 ^ 20 then .periodic n
      else mandelLoop c fuel (n + 1) z2

/-- The value `mandelbrot_calculation` stores for one pixel: the escape
index on divergence, `max_iter` on the periodicity shortcut or on loop
completion.  (`range` of a nonpositive count is empty, hence `Int.toNat`.) -/
def mandelbrot_pixel (c : ℚ × ℚ) (max_iter : ℤ) : ℤ :=
  match mandelLoop c max_iter.toNat 0 (0, 0) with
  | .escaped n => (n : ℤ)
  | .periodic _ => max_iter
  | .completed => max_iter

/-- Pixel-to-plane mapping `lo + (hi - lo) * idx / (count - 1)` of
`mandelbrot_calculation` (source lines 48-49).  Note that the source does
NOT guard `count == 1`; in Lean division by zero yields `0`, while the
Python source raises `ZeroDivisionError`.  `mandelbrot_calculation_checked`
below accounts for the error case. -/
def pixelCoordD (lo hi : ℚ) (count idx : ℕ) : ℚ :=
  lo + (hi - lo) * (idx : ℚ) / ((count : ℚ) - 1)

/-- `mandelbrot_calculation(height, width, x_min, x_max, y_min, y_max,
max_iter)` as a grid function: entry `(i, j)` is the escape value of the
plane point obtained by the linear pixel mapping. -/
def mandelbrot_calculation (height width : ℕ) (x_min x_max y_min y_max : ℚ)
    (max_iter : ℤ) : ℕ → ℕ → ℤ :=
  fun i j =>
    mandelbrot_pixel (pixelCoordD x_min x_max width j, pixelCoordD y_min y_max height i)
      max_iter

/-- Every pixel visited by the loops of `mandelbrot_calculation` performs
the two divisions by `width - 1` and `height - 1`; this predicate states
that none of those divisions has a zero denominator. -/
def divisionByZeroFree (height width : ℕ) : Prop :=
  ∀ i, i < height → ∀ j, j < width → ((width : ℚ) - 1 ≠ 0 ∧ (height : ℚ) - 1 ≠ 0)

instance (height width : ℕ) : Decidable (divisionByZeroFree height width) := by
  unfold divisionByZeroFree; infer_instance

/-- `mandelbrot_calculation` with the Python error behaviour made explicit:
`none` models the `ZeroDivisionError` raised by the pixel mapping when a
visited pixel divides by `width - 1 = 0` or `height - 1 = 0`. -/
def mandelbrot_calculation_checked (height width : ℕ) (x_min x_max y_min y_max : ℚ)
    (max_iter : ℤ) : Option (ℕ → ℕ → ℤ) :=
  if divisionByZeroFree height width then
    some (mandelbrot_calculation height width x_min x_max y_min y_max max_iter)
  else none

/-- `self.min_iter`, set in `__init__` and never reassigned. -/
def minIter : ℤ := 50

/-- `self.max_max_iter`, set in `__init__` and never reassigned. -/
def maxMaxIter : ℤ := 2000

/-- The cache-key tuple
`(x_center, y_center, zoom, width, height, max_iter)` built in `generate`. -/
structure RenderParams where
  x_center : ℚ
  y_center : ℚ
  zoom : ℚ
  width : ℕ
  height : ℕ
  max_iter : ℤ
deriving DecidableEq

/-- Mutable state of `MandelbrotEngine`.  `min_iter` and `max_max_iter` are
constant fields (see `minIter`, `maxMaxIter`). -/
structure MandelbrotEngine where
  width : ℕ
  height : ℕ
  x_center : ℚ
  y_center : ℚ
  zoom : ℚ
  aspect_ratio : ℚ
  max_iter : ℤ
  last_params : Option RenderParams
  cached_result : Option (ℕ → ℕ → ℤ)
  render_count : ℕ
  total_pixels : ℕ

/-- `MandelbrotEngine.__init__(width, height)`. -/
def MandelbrotEngine.init (width height : ℕ) : MandelbrotEngine where
  width := width
  height := height
  x_center := -(1 / 2)
  y_center := 0
  zoom := 1
  aspect_ratio := (width : ℚ) / (height : ℚ)
  max_iter := 100
  last_params := none
  cached_result := none
  render_count := 0
  total_pixels := width * height

/-- `MandelbrotEngine.get_bounds`: `(x_min, x_max, y_min, y_max)` of the
rendered region, derived from center, zoom and aspect ratio. -/
def get_bounds (e : MandelbrotEngine) : ℚ × ℚ × ℚ × ℚ :=
  let view_width := 3 / e.zoom
  let view_height := view_width / e.aspect_ratio
  (e.x_center - view_width / 2, e.x_center + view_width / 2,
   e.y_center - view_height / 2, e.y_center + view_height / 2)

/-- `MandelbrotEngine.adaptive_iterations(zoom)`:
`min(int(self.min_iter + np.log10(zoom + 1) * 30), self.max_max_iter)`. -/
noncomputable def adaptive_iterations (zoom : ℚ) : ℤ :=
  min (pyint ((minIter : ℝ) + Real.logb 10 ((zoom : ℝ) + 1) * 30)) maxMaxIter

/-- Modelled from the spec: `clamp(min_iter + log10(zoom + 1) * 30,
min_iter, max_max_iter)` taking the floor of the intermediate value —
the formula the claims state for `adaptive_iterations`. -/
noncomputable def adaptiveIterationsSpec (zoom : ℚ) : ℤ :=
  max 50 (min (⌊(50 : ℝ) + Real.logb 10 ((zoom : ℝ) + 1) * 30⌋) 2000)

/-- The `current_params` tuple built at the top of `generate`. -/
def currentParams (e : MandelbrotEngine) : RenderParams :=
  ⟨e.x_center, e.y_center, e.zoom, e.width, e.height, e.max_iter⟩

/-- The cache-miss path of `generate`: compute the grid with
`actual_iter = min(self.max_iter, self.adaptive_iterations(self.zoom))`,
store the params/grid pair and bump `render_count`. -/
noncomputable def generateMiss (e : MandelbrotEngine) :
    MandelbrotEngine × (ℕ → ℕ → ℤ) :=
  let b := get_bounds e
  let adaptive_iter := adaptive_iterations e.zoom
  let actual_iter := min e.max_iter adaptive_iter
  let result := mandelbrot_calculation e.height e.width b.1 b.2.1 b.2.2.1 b.2.2.2
    actual_iter
  ({ e with
      last_params := some (currentParams e)
      cached_result := some result
      render_count := e.render_count + 1 },
   result)

/-- `MandelbrotEngine.generate`: return the cached grid when
`current_params == self.last_params and self.cached_result is not None`,
otherwise recompute via `generateMiss`. -/
noncomputable def generate (e : MandelbrotEngine) : MandelbrotEngine × (ℕ → ℕ → ℤ) :=
  match e.last_params, e.cached_result with
  | some p, some g => if currentParams e = p then (e, g) else generateMiss e
  | some _, none => generateMiss e
  | none, _ => generateMiss e

/-- `MandelbrotEngine.zoom_at_point(screen_x, screen_y, zoom_factor)`:
re-center on the clicked plane point, multiply zoom by the factor, then
clamp zoom to at most `1e15` and at least `0.1` (in that order). -/
def zoom_at_point (e : MandelbrotEngine) (screen_x screen_y : ℤ) (zoom_factor : ℚ) :
    MandelbrotEngine :=
  let b := get_bounds e
  let math_x := b.1 + (b.2.1 - b.1) * (screen_x : ℚ) / (e.width : ℚ)
  let math_y := b.2.2.1 + (b.2.2.2 - b.2.2.1) * (screen_y : ℚ) / (e.height : ℚ)
  let zoom1 := e.zoom * zoom_factor
  let zoom2 := if 10 ^ 15 < zoom1 then 10 ^ 15 else zoom1
  let zoom3 := if zoom2 < 1 / 10 then 1 / 10 else zoom2
  { e with x_center := math_x, y_center := math_y, zoom := zoom3 }

/-- `MandelbrotEngine.pan(dx, dy)`: shift the center by pixel deltas scaled
to plane units via the current bounds. -/
def pan (e : MandelbrotEngine) (dx dy : ℤ) : MandelbrotEngine :=
  let b := get_bounds e
  let pixel_width := (b.2.1 - b.1) / (e.width : ℚ)
  let pixel_height := (b.2.2.2 - b.2.2.1) / (e.height : ℚ)
  { e with
      x_center := e.x_center + (dx : ℚ) * pixel_width
      y_center := e.y_center + (dy : ℚ) * pixel_height }

/-- `MandelbrotEngine.reset_view`: restore the default view and clear the
cache. -/
def reset_view (e : MandelbrotEngine) : MandelbrotEngine :=
  { e with
      x_center := -(1 / 2)
      y_center := 0
      zoom := 1
      max_iter := 100
      last_params := none
      cached_result := none }

/-- `MandelbrotEngine.resize(width, height)`: update dimensions, aspect
ratio and pixel count, and clear the cache. -/
def resize (e : MandelbrotEngine) (width height : ℕ) : MandelbrotEngine :=
  { e with
      width := width
      height := height
      aspect_ratio := (width : ℚ) / (height : ℚ)
      total_pixels := width * height
      last_params := none
      cached_result := none }

/-- `MandelbrotEngine.increase_iterations(factor=50)`. -/
def increase_iterations (e : MandelbrotEngine) (factor : ℤ := 50) : MandelbrotEngine :=
  { e with
      max_iter := min (e.max_iter + factor) maxMaxIter
      last_params := none
      cached_result := none }

/-- `MandelbrotEngine.decrease_iterations(factor=50)`. -/
def decrease_iterations (e : MandelbrotEngine) (factor : ℤ := 50) : MandelbrotEngine :=
  { e with
      max_iter := max (e.max_iter - factor) minIter
      last_params := none
      cached_result := none }

/-- The navigation commands of the engine (everything the UI can invoke
apart from `generate`, which mutates only the cache and statistics). -/
inductive NavOp where
  | zoomAt (sx sy : ℤ) (k : ℚ)
  | panBy (dx dy : ℤ)
  | reset
  | resizeTo (w h : ℕ)
  | incIter (f : ℤ)
  | decIter (f : ℤ)

/-- Apply one navigation command to the engine state. -/
def applyNav (e : MandelbrotEngine) : NavOp → MandelbrotEngine
  | .zoomAt sx sy k => zoom_at_point e sx sy k
  | .panBy dx dy => pan e dx dy
  | .reset => reset_view e
  | .resizeTo w h => resize e w h
  | .incIter f => increase_iterations e f
  | .decIter f => decrease_iterations e f

/-- The zoom invariant of the spec: `zoom ∈ [0.1, 1e15]`. -/
def zoomInRange (e : MandelbrotEngine) : Prop :=
  1 / 10 ≤ e.zoom ∧ e.zoom ≤ 10 ^ 15


/-! ### Color palette system (color_palette.py) -/

/-- An RGB triple of integer channels. -/
def RGB := ℤ × ℤ × ℤ

/-- `colorsys.hsv_to_rgb(h, s, v)` from the Python standard library,
returning float components. -/
noncomputable def colorsysHsvToRgb (h s v : ℝ) : ℝ × ℝ × ℝ :=
  if s = 0 then (v, v, v)
  else
    let i : ℤ := pyint (h * 6)
    let f : ℝ := h * 6 - (i : ℝ)
    let p : ℝ := v * (1 - s)
    let q : ℝ := v * (1 - s * f)
    let t : ℝ := v * (1 - s * (1 - f))
    let r : ℤ := i % 6
    if r = 0 then (v, t, p)
    else if r = 1 then (q, v, p)
    else if r = 2 then (p, v, t)
    else if r = 3 then (p, q, v)
    else if r = 4 then (t, p, v)
    else (v, p, q)

/-- `ColorPalette.hsv_to_rgb`: convert via `colorsys` and scale each float
component by 255 with `int(...)`. -/
noncomputable def hsv_to_rgb (h s v : ℝ) : RGB :=
  let c := colorsysHsvToRgb h s v
  (pyint (c.1 * 255), pyint (c.2.1 * 255), pyint (c.2.2 * 255))

open Real in
/-- `ColorPalette.rainbow_color(t, intensity)` at animation time `anim`. -/
noncomputable def rainbow_color (anim t intensity : ℝ) : RGB :=
  let hue := pymod1 (t * 6 + anim)
  let saturation := 0.8 + 0.2 * sin (t * π * 4 + anim * 2)
  let value := intensity * (0.5 + 0.5 * sin (t * π * 2))
  hsv_to_rgb hue saturation value

open Real in
/-- `ColorPalette.ocean_color(t, intensity)` at animation time `anim`. -/
noncomputable def ocean_color (anim t intensity : ℝ) : RGB :=
  if t < 0.1 then
    let blue := pyint (10 + t * 500 * intensity)
    let green := pyint (5 + t * 300 * intensity)
    let red : ℤ := 0
    (pyclamp red, pyclamp green, pyclamp blue)
  else if t < 0.6 then
    let wave := sin (t * π * 8 + anim * 3)
    let blue := pyint (50 + (t - 0.1) * 400 * intensity + wave * 30)
    let green := pyint (30 + (t - 0.1) * 300 * intensity + wave * 40)
    let red := pyint (wave * 20)
    (pyclamp red, pyclamp green, pyclamp blue)
  else
    let foam := sin (t * π * 16 + anim * 5)
    let blue := pyint (150 + (t - 0.6) * 200 + foam * 50)
    let green := pyint (200 + (t - 0.6) * 50 + foam * 30)
    let red := pyint (100 + foam * 40)
    (pyclamp red, pyclamp green, pyclamp blue)

open Real in
/-- `ColorPalette.fire_color(t, intensity)` at animation time `anim`. -/
noncomputable def fire_color (anim t intensity : ℝ) : RGB :=
  let flicker := sin (t * π * 12 + anim * 8) * 0.1
  let adjusted_t := max 0 (min 1 (t + flicker))
  if adjusted_t < 0.2 then
    let red := pyint (20 + adjusted_t * 600 * intensity)
    let green := pyint (adjusted_t * 100 * intensity)
    let blue : ℤ := 0
    (pyclamp red, pyclamp green, pyclamp blue)
  else if adjusted_t < 0.5 then
    let red := pyint (120 + (adjusted_t - 0.2) * 400 * intensity)
    let green := pyint (20 + (adjusted_t - 0.2) * 600 * intensity)
    let blue := pyint ((adjusted_t - 0.2) * 100 * intensity)
    (pyclamp red, pyclamp green, pyclamp blue)
  else if adjusted_t < 0.8 then
    let red := pyint (200 + (adjusted_t - 0.5) * 150 * intensity)
    let green := pyint (120 + (adjusted_t - 0.5) * 400 * intensity)
    let blue := pyint (30 + (adjusted_t - 0.5) * 200 * intensity)
    (pyclamp red, pyclamp green, pyclamp blue)
  else
    let red : ℤ := 255
    let green := pyint (220 + (adjusted_t - 0.8) * 175 * intensity)
    let blue := pyint (60 + (adjusted_t - 0.8) * 700 * intensity)
    (pyclamp red, pyclamp green, pyclamp blue)

open Real in
/-- `ColorPalette.electric_color(t, intensity)` at animation time `anim`. -/
noncomputable def electric_color (anim t intensity : ℝ) : RGB :=
  let pulse := sin (t * π * 6 + anim * 10) * 0.3
  let spark := sin (t * π * 20 + anim * 15) * 0.1
  let base_hue := 0.6 + t * 0.3 + pulse * 0.1
  let saturation := 0.9 + spark * 0.1
  let value := intensity * (0.3 + 0.7 * t + pulse * 0.3)
  hsv_to_rgb (pymod1 base_hue) (min 1 saturation) (min 1 value)

open Real in
/-- `ColorPalette.cosmic_color(t, intensity)` at animation time `anim`. -/
noncomputable def cosmic_color (anim t intensity : ℝ) : RGB :=
  let swirl := sin (t * π * 3 + anim * 2) * 0.2
  let twinkle := sin (t * π * 25 + anim * 12) * 0.1
  if t < 0.3 then
    let red := pyint (20 + t * 200 * intensity + twinkle * 50)
    let green := pyint (5 + t * 50 * intensity)
    let blue := pyint (40 + t * 400 * intensity + swirl * 60)
    (pyclamp red, pyclamp green, pyclamp blue)
  else if t < 0.7 then
    let red := pyint (60 + (t - 0.3) * 400 * intensity + swirl * 80)
    let green := pyint (20 + (t - 0.3) * 200 * intensity + twinkle * 40)
    let blue := pyint (120 + (t - 0.3) * 300 * intensity)
    (pyclamp red, pyclamp green, pyclamp blue)
  else
    let red := pyint (200 + (t - 0.7) * 180 * intensity)
    let green := pyint (150 + (t - 0.7) * 300 * intensity)
    let blue := pyint (50 + (t - 0.7) * 400 * intensity + twinkle * 100)
    (pyclamp red, pyclamp green, pyclamp blue)

/-- `ColorPalette.vintage_color(t, intensity)` (animation-independent). -/
noncomputable def vintage_color (_anim t intensity : ℝ) : RGB :=
  let base := t * intensity
  let red := pyint (100 + base * 120)
  let green := pyint (80 + base * 100)
  let blue := pyint (50 + base * 60)
  (pyclamp red, pyclamp green, pyclamp blue)

open Real in
/-- `ColorPalette.neon_color(t, intensity)` at animation time `anim`. -/
noncomputable def neon_color (anim t intensity : ℝ) : RGB :=
  let glow := sin (t * π * 8 + anim * 6) * 0.2
  let hue := pymod1 (t * 0.8 + anim * 0.1)
  hsv_to_rgb hue 1 (min 1 (intensity * (0.7 + 0.3 * t + glow)))

open Real in
/-- `ColorPalette.ice_color(t, intensity)` at animation time `anim`. -/
noncomputable def ice_color (anim t intensity : ℝ) : RGB :=
  let crystal := sin (t * π * 15 + anim * 4) * 0.1
  let blue_base := 150 + t * 100 * intensity + crystal * 30
  let red_base := 100 + t * 120 * intensity + crystal * 50
  let green_base := 130 + t * 110 * intensity + crystal * 40
  (pyclamp (pyint red_base), pyclamp (pyint green_base), pyclamp (pyint blue_base))

/-- `ColorPalette.sunset_color(t, intensity)` (animation-independent). -/
noncomputable def sunset_color (_anim t intensity : ℝ) : RGB :=
  if t < 0.4 then
    let red := pyint (255 * intensity)
    let green := pyint (120 + t * 300 * intensity)
    let blue := pyint (30 + t * 100 * intensity)
    (pyclamp red, pyclamp green, pyclamp blue)
  else
    let red := pyint (200 + (1 - t) * 100 * intensity)
    let green := pyint (50 + t * 150 * intensity)
    let blue := pyint (80 + t * 300 * intensity)
    (pyclamp red, pyclamp green, pyclamp blue)

open Real in
/-- `ColorPalette.matrix_color(t, intensity)` at animation time `anim`. -/
noncomputable def matrix_color (anim t intensity : ℝ) : RGB :=
  let digital := sin (t * π * 30 + anim * 20) * 0.2
  let green := pyint (50 + t * 200 * intensity + digital * 50)
  let red := pyint (t * 50 * intensity)
  let blue := pyint (t * 30 * intensity)
  (pyclamp red, pyclamp green, pyclamp blue)

/-- Dispatch of `get_color` on `current_palette` (the `color_functions`
dict; palette ids follow the declaration order of `PaletteType`, and
`dict.get` falls back to `rainbow_color`). -/
noncomputable def paletteColor (palette_id : ℕ) (anim t intensity : ℝ) : RGB :=
  match palette_id with
  | 0 => rainbow_color anim t intensity
  | 1 => ocean_color anim t intensity
  | 2 => fire_color anim t intensity
  | 3 => electric_color anim t intensity
  | 4 => cosmic_color anim t intensity
  | 5 => vintage_color anim t intensity
  | 6 => neon_color anim t intensity
  | 7 => ice_color anim t intensity
  | 8 => sunset_color anim t intensity
  | 9 => matrix_color anim t intensity
  | _ => rainbow_color anim t intensity

/-- `ColorPalette.get_color(iterations, max_iterations)` for a given
palette id and animation time: the color computed on a cache miss.  The
`color_cache` stores only outputs of this function, keyed by
`(iterations, max_iterations, palette_id, int(animation_time * 100))`, so a
cache hit returns this function's value at some animation time in the same
hundredth-bucket. -/
noncomputable def get_color (palette_id : ℕ) (anim : ℝ) (iterations max_iterations : ℤ) :
    RGB :=
  if max_iterations ≤ iterations then (0, 0, 0)
  else
    let t : ℝ := (iterations : ℝ) / (max_iterations : ℝ)
    let intensity := min 1 (Real.sqrt t * 1.2)
    paletteColor palette_id anim t intensity

/-- Each channel of an RGB triple lies in `[0, 255]`. -/
def inRGBRange (c : RGB) : Prop :=
  0 ≤ c.1 ∧ c.1 ≤ 255 ∧ 0 ≤ c.2.1 ∧ c.2.1 ≤ 255 ∧ 0 ≤ c.2.2 ∧ c.2.2 ≤ 255

/-! ### Lemmas about the per-pixel iteration loop -/

lemma mandelLoop_escaped_lt (c : ℚ × ℚ) :
    ∀ fuel n z m, mandelLoop c fuel n z = .escaped m → m < n + fuel := by
  intro fuel
  induction fuel with
  | zero => intro n z m h; simp [mandelLoop] at h
  | succ f ih =>
    intro n z m h
    rw [mandelLoop] at h
    split at h
    · cases h; omega
    · simp only [] at h
      split at h
      · cases h
      · have := ih (n + 1) _ m h
        omega

lemma mandelbrot_pixel_nonneg (c : ℚ × ℚ) (m : ℤ) (hm : 0 ≤ m) :
    0 ≤ mandelbrot_pixel c m := by
  unfold mandelbrot_pixel
  split
  · positivity
  · exact hm
  · exact hm

lemma mandelbrot_pixel_le (c : ℚ × ℚ) (m : ℤ) : mandelbrot_pixel c m ≤ m := by
  unfold mandelbrot_pixel
  split
  next n h =>
    have hlt := mandelLoop_escaped_lt c m.toNat 0 (0, 0) n h
    omega
  · exact le_refl m
  · exact le_refl m

lemma mandelbrot_pixel_eq_iff (c : ℚ × ℚ) (m : ℤ) :
    mandelbrot_pixel c m = m ↔ ∀ n, mandelLoop c m.toNat 0 (0, 0) ≠ .escaped n := by
  unfold mandelbrot_pixel
  split
  next n h =>
    have hlt := mandelLoop_escaped_lt c m.toNat 0 (0, 0) n h
    constructor
    · intro he; omega
    · intro hall; exact absurd h (hall n)
  next n h =>
    constructor
    · intro _ k hk; rw [h] at hk; cases hk
    · intro _; rfl
  next h =>
    constructor
    · intro _ k hk; rw [h] at hk; cases hk
    · intro _; rfl

/-- A point with `|c| > 2` (i.e. `normSq c > 4`) escapes at iteration index 1:
iteration 0 sees `z = 0`, updates `z` to `c`, and iteration 1 records the
escape. -/
lemma mandelbrot_pixel_escape1 (c : ℚ × ℚ) (m : ℤ) (hm : 2 ≤ m) (hc : 4 < normSq c) :
    mandelbrot_pixel c m = 1 := by
  obtain ⟨f, hf⟩ : ∃ f, m.toNat = f + 2 := ⟨m.toNat - 2, by omega⟩
  have h0 : ¬ (4 : ℚ) < normSq ((0 : ℚ), (0 : ℚ)) := by norm_num [normSq]
  have hstep : mandelStep (0, 0) c = c := by simp [mandelStep]
  unfold mandelbrot_pixel
  rw [hf, mandelLoop]
  rw [if_neg h0]
  simp only [hstep, Nat.zero_add]
  rw [mandelLoop]
  rw [if_pos hc]
  norm_num

/-! ### Claim theorems (iteration engine geometry and grid range) -/

/-- Claim C1: the claim states that `mandelbrot_calculation` treats a
single-pixel axis as a fixed coordinate and never divides by zero.  In
fact the source computes `j / (width - 1)` and `i / (height - 1)` with no
guard, so a call with `width == 1` or `height == 1` (and at least one
pixel) divides by zero: `divisionByZeroFree 1 1` fails and the checked
embedding returns `none` (modelling the `ZeroDivisionError`) instead of a
grid. -/
theorem c1_single_pixel_axis_divides_by_zero :
    ¬ divisionByZeroFree 1 1 ∧
      mandelbrot_calculation_checked 1 1 0 1 0 1 10 = none := by
  have h : ¬ divisionByZeroFree 1 1 := by
    intro h
    have := (h 0 one_pos 0 one_pos).1
    norm_num at this
  exact ⟨h, by rw [mandelbrot_calculation_checked]; exact if_neg h⟩

/-- Claim C4, counterexample: in the 2×2 grid over bounds
`(0,2) × (0,2)` with `max_iter = 50`, pixel `(1,1)` has plane coordinate
exactly `(2, 2)` (so `|c| > 2`), yet its grid entry is `1`, not `0` as the
claim states: iteration index 0 sees `z = 0`, which does not satisfy
`|z| > 2`, and the escape is recorded at index 1. -/
theorem c4_plane_point_two_two_value_is_one :
    pixelCoordD 0 2 2 1 = 2 ∧
      mandelbrot_calculation 2 2 0 2 0 2 50 1 1 = 1 ∧
      mandelbrot_calculation 2 2 0 2 0 2 50 1 1 ≠ 0 := by
  have hcoord : pixelCoordD 0 2 2 1 = 2 := by norm_num [pixelCoordD]
  have h1 : mandelbrot_calculation 2 2 0 2 0 2 50 1 1 = 1 := by
    rw [mandelbrot_calculation, hcoord]
    exact mandelbrot_pixel_escape1 (2, 2) 50 (by norm_num) (by norm_num [normSq])
  exact ⟨hcoord, h1, by rw [h1]; norm_num⟩

/-- Claim C4, amended: a pixel whose plane coordinate `c` satisfies
`|c| > 2` escapes at iteration index 1 (the first index at which `z` holds
the value `c`), so its grid entry equals `1`, provided `max_iter ≥ 2`. -/
theorem c4_big_point_escapes_at_index_one (c : ℚ × ℚ) (max_iter : ℤ)
    (hm : 2 ≤ max_iter) (hc : 4 < normSq c) :
    mandelbrot_pixel c max_iter = 1 :=
  mandelbrot_pixel_escape1 c max_iter hm hc

/-- Witness for `c4_big_point_escapes_at_index_one` at `c = (2,2)`,
`max_iter = 50`. -/
theorem c4_big_point_escapes_at_index_one_witness :
    (2 : ℤ) ≤ 50 ∧ (4 : ℚ) < normSq (2, 2) ∧ mandelbrot_pixel (2, 2) 50 = 1 :=
  ⟨by norm_num, by norm_num [normSq],
    c4_big_point_escapes_at_index_one (2, 2) 50 (by norm_num) (by norm_num [normSq])⟩

/-- Claim C6: whenever `mandelbrot_calculation` returns a grid (no
division by zero) for `max_iter ≥ 0`, every entry within the grid's shape
is an integer in `[0, max_iter]`, and an entry equals `max_iter` exactly
when the pixel's loop did not exit through the divergence test (it either
completed or took the periodicity shortcut). -/
theorem c6_grid_entries_in_range
    (height width : ℕ) (x_min x_max y_min y_max : ℚ) (max_iter : ℤ)
    (g : ℕ → ℕ → ℤ) (hm : 0 ≤ max_iter)
    (hg : mandelbrot_calculation_checked height width x_min x_max y_min y_max max_iter
      = some g)
    (i j : ℕ) (_hi : i < height) (_hj : j < width) :
    0 ≤ g i j ∧ g i j ≤ max_iter ∧
      (g i j = max_iter ↔
        ∀ n, mandelLoop (pixelCoordD x_min x_max width j, pixelCoordD y_min y_max height i)
          max_iter.toNat 0 (0, 0) ≠ .escaped n) := by
  have hgg : g = mandelbrot_calculation height width x_min x_max y_min y_max max_iter := by
    rw [mandelbrot_calculation_checked] at hg
    split at hg
    · cases hg; rfl
    · cases hg
  subst hgg
  exact ⟨mandelbrot_pixel_nonneg _ _ hm, mandelbrot_pixel_le _ _,
    mandelbrot_pixel_eq_iff _ _⟩

/-- Witness for `c6_grid_entries_in_range` on the 2×2 grid over
`(0,1) × (0,1)` with `max_iter = 3`, at pixel `(0,0)`. -/
theorem c6_grid_entries_in_range_witness :
    (0 : ℤ) ≤ 3 ∧
      mandelbrot_calculation_checked 2 2 0 1 0 1 3
        = some (mandelbrot_calculation 2 2 0 1 0 1 3) ∧
      (0 < 2 ∧ 0 < 2) ∧
      (0 ≤ mandelbrot_calculation 2 2 0 1 0 1 3 0 0 ∧
        mandelbrot_calculation 2 2 0 1 0 1 3 0 0 ≤ 3 ∧
        (mandelbrot_calculation 2 2 0 1 0 1 3 0 0 = 3 ↔
          ∀ n, mandelLoop (pixelCoordD 0 1 2 0, pixelCoordD 0 1 2 0)
            (3 : ℤ).toNat 0 (0, 0) ≠ .escaped n)) := by
  have hfree : divisionByZeroFree 2 2 := by intro i _ j _; norm_num
  have hsome : mandelbrot_calculation_checked 2 2 0 1 0 1 3
      = some (mandelbrot_calculation 2 2 0 1 0 1 3) := by
    rw [mandelbrot_calculation_checked]; exact if_pos hfree
  exact ⟨by norm_num, hsome, ⟨by norm_num, by norm_num⟩,
    c6_grid_entries_in_range 2 2 0 1 0 1 3 _ (by norm_num) hsome 0 0
      (by norm_num) (by norm_num)⟩

/-! ### Zoom clamp invariant and the zoom-at-point round trip -/

/-- The two sequential `if` clamps of `zoom_at_point` amount to clamping
`zoom * factor` into `[0.1, 1e15]`. -/
lemma zoom_at_point_zoom_eq (e : MandelbrotEngine) (sx sy : ℤ) (k : ℚ) :
    (zoom_at_point e sx sy k).zoom = max (1 / 10) (min (10 ^ 15) (e.zoom * k)) := by
  unfold zoom_at_point
  dsimp only
  split_ifs with h1 h2 h3
  · exact absurd h2 (by norm_num)
  · rw [min_eq_left (le_of_lt h1), max_eq_right (by norm_num : (1:ℚ)/10 ≤ 10 ^ 15)]
  · rw [min_eq_right (le_of_not_lt h1), max_eq_left (le_of_lt h3)]
  · rw [min_eq_right (le_of_not_lt h1), max_eq_right (le_of_not_lt h3)]

lemma applyNav_zoom_invariant (e : MandelbrotEngine) (op : NavOp)
    (h : zoomInRange e) : zoomInRange (applyNav e op) := by
  cases op with
  | zoomAt sx sy k =>
    refine ⟨?_, ?_⟩
    · rw [applyNav, zoom_at_point_zoom_eq]; exact le_max_left _ _
    · rw [applyNav, zoom_at_point_zoom_eq]
      exact max_le (by norm_num) (min_le_of_left_le (le_refl _))
  | panBy dx dy => exact h
  | reset => exact ⟨by norm_num [reset_view, applyNav], by norm_num [reset_view, applyNav]⟩
  | resizeTo w h2 => exact h
  | incIter f => exact h
  | decIter f => exact h

lemma foldl_zoom_invariant (ops : List NavOp) (e : MandelbrotEngine)
    (h : zoomInRange e) : zoomInRange (ops.foldl applyNav e) := by
  induction ops generalizing e with
  | nil => exact h
  | cons op rest ih => exact ih _ (applyNav_zoom_invariant e op h)

/-- Claim C8: starting from the initial state (zoom = 1), every sequence of
navigation operations keeps `zoom` in `[0.1, 1e15]`; moreover
`zoom_at_point` always succeeds and merely clamps the requested zoom into
that range (it is a total function computing exactly the clamp). -/
theorem c8_zoom_always_clamped (w h : ℕ) (ops : List NavOp) :
    zoomInRange (ops.foldl applyNav (MandelbrotEngine.init w h)) ∧
      ∀ (e : MandelbrotEngine) (sx sy : ℤ) (k : ℚ),
        (zoom_at_point e sx sy k).zoom = max (1 / 10) (min (10 ^ 15) (e.zoom * k)) :=
  ⟨foldl_zoom_invariant ops _
      ⟨by norm_num [MandelbrotEngine.init], by norm_num [MandelbrotEngine.init]⟩,
   fun e sx sy k => zoom_at_point_zoom_eq e sx sy k⟩

/-- When the clicked screen point is the exact screen center, the
re-centering step of `zoom_at_point` maps the center to itself. -/
lemma zoom_at_point_center_fixed (e : MandelbrotEngine) (sx sy : ℤ) (k : ℚ)
    (hsx : (sx : ℚ) * 2 = (e.width : ℚ)) (hsy : (sy : ℚ) * 2 = (e.height : ℚ))
    (hw : (e.width : ℚ) ≠ 0) (hh : (e.height : ℚ) ≠ 0) :
    (zoom_at_point e sx sy k).x_center = e.x_center ∧
      (zoom_at_point e sx sy k).y_center = e.y_center := by
  have hsx' : (sx : ℚ) = (e.width : ℚ) / 2 := by linarith
  have hsy' : (sy : ℚ) = (e.height : ℚ) / 2 := by linarith
  have key : ∀ (c v w : ℚ), w ≠ 0 →
      (c - v / 2) + ((c + v / 2) - (c - v / 2)) * (w / 2) / w = c := by
    intro c v w hw0
    field_simp
    ring
  unfold zoom_at_point get_bounds
  dsimp only
  constructor
  · rw [hsx']
    exact key e.x_center (3 / e.zoom) _ hw
  · rw [hsy']
    exact key e.y_center (3 / e.zoom / e.aspect_ratio) _ hh

/-- Claim C2, counterexample: from the initial 4×4 engine (center
`(-0.5, 0)`, zoom 1), `zoom_at_point(0, 0, 2)` followed by
`zoom_at_point(0, 0, 1/2)` restores the zoom but moves `x_center` from
`-0.5` to `-2.75`, hugely beyond the claimed `1e-9` relative tolerance —
neither call hits the zoom clamp (`1·2 = 2 ∈ [0.1, 1e15]`). -/
theorem c2_center_not_restored_cex :
    ((1 : ℚ) / 10 ≤ 1 * 2 ∧ (1 : ℚ) * 2 ≤ 10 ^ 15) ∧
      (zoom_at_point (zoom_at_point (MandelbrotEngine.init 4 4) 0 0 2) 0 0 (1 / 2)).zoom
        = (MandelbrotEngine.init 4 4).zoom ∧
      (zoom_at_point (zoom_at_point (MandelbrotEngine.init 4 4) 0 0 2) 0 0 (1 / 2)).x_center
        = -(11 / 4) ∧
      (MandelbrotEngine.init 4 4).x_center = -(1 / 2) ∧
      ¬ (|(zoom_at_point (zoom_at_point (MandelbrotEngine.init 4 4) 0 0 2) 0 0
              (1 / 2)).x_center
            - (MandelbrotEngine.init 4 4).x_center|
          ≤ 1 / 10 ^ 9 * max
              |(zoom_at_point (zoom_at_point (MandelbrotEngine.init 4 4) 0 0 2) 0 0
                  (1 / 2)).x_center|
              |(MandelbrotEngine.init 4 4).x_center|) := by
  norm_num [zoom_at_point, get_bounds, MandelbrotEngine.init, abs]

/-- Claim C2, amended: `zoom_at_point(x, y, k)` followed by
`zoom_at_point(x, y, 1/k)` restores `zoom` exactly when neither call hits
the `[0.1, 1e15]` clamp, but the center is NOT restored in general (see
the counterexample); it is restored when the clicked screen point is the
exact screen center. -/
theorem c2_round_trip_restores_zoom_but_not_center
    (e : MandelbrotEngine) (sx sy : ℤ) (k : ℚ)
    (hz : 1 / 10 ≤ e.zoom ∧ e.zoom ≤ 10 ^ 15)
    (hzk : 1 / 10 ≤ e.zoom * k ∧ e.zoom * k ≤ 10 ^ 15)
    (hk : k ≠ 0) :
    (zoom_at_point (zoom_at_point e sx sy k) sx sy k⁻¹).zoom = e.zoom ∧
      (((sx : ℚ) * 2 = (e.width : ℚ) ∧ (sy : ℚ) * 2 = (e.height : ℚ) ∧
          (e.width : ℚ) ≠ 0 ∧ (e.height : ℚ) ≠ 0) →
        (zoom_at_point (zoom_at_point e sx sy k) sx sy k⁻¹).x_center = e.x_center ∧
          (zoom_at_point (zoom_at_point e sx sy k) sx sy k⁻¹).y_center = e.y_center) := by
  have hz1 : (zoom_at_point e sx sy k).zoom = e.zoom * k := by
    rw [zoom_at_point_zoom_eq, min_eq_right hzk.2, max_eq_right hzk.1]
  constructor
  · rw [zoom_at_point_zoom_eq, hz1, mul_inv_cancel_right₀ hk,
      min_eq_right hz.2, max_eq_right hz.1]
  · rintro ⟨hsx, hsy, hw, hh⟩
    have h1 := zoom_at_point_center_fixed e sx sy k hsx hsy hw hh
    have h2 := zoom_at_point_center_fixed (zoom_at_point e sx sy k) sx sy k⁻¹
      hsx hsy hw hh
    exact ⟨h2.1.trans h1.1, h2.2.trans h1.2⟩

/-- Witness for `c2_round_trip_restores_zoom_but_not_center`: the initial
4×4 engine, screen point `(2, 2)` (the screen center), factor `k = 2`. -/
theorem c2_round_trip_witness :
    ((1 : ℚ) / 10 ≤ (MandelbrotEngine.init 4 4).zoom ∧
        (MandelbrotEngine.init 4 4).zoom ≤ 10 ^ 15) ∧
      ((1 : ℚ) / 10 ≤ (MandelbrotEngine.init 4 4).zoom * 2 ∧
        (MandelbrotEngine.init 4 4).zoom * 2 ≤ 10 ^ 15) ∧
      ((2 : ℚ) ≠ 0) ∧
      (zoom_at_point (zoom_at_point (MandelbrotEngine.init 4 4) 2 2 2) 2 2
          (2 : ℚ)⁻¹).zoom = (MandelbrotEngine.init 4 4).zoom ∧
      (zoom_at_point (zoom_at_point (MandelbrotEngine.init 4 4) 2 2 2) 2 2
          (2 : ℚ)⁻¹).x_center = (MandelbrotEngine.init 4 4).x_center ∧
      (zoom_at_point (zoom_at_point (MandelbrotEngine.init 4 4) 2 2 2) 2 2
          (2 : ℚ)⁻¹).y_center = (MandelbrotEngine.init 4 4).y_center := by
  have h := c2_round_trip_restores_zoom_but_not_center (MandelbrotEngine.init 4 4) 2 2 2
    (by norm_num [MandelbrotEngine.init]) (by norm_num [MandelbrotEngine.init])
    (by norm_num)
  have hcen := h.2 ⟨by norm_num [MandelbrotEngine.init], by norm_num [MandelbrotEngine.init],
    by norm_num [MandelbrotEngine.init], by norm_num [MandelbrotEngine.init]⟩
  exact ⟨⟨by norm_num [MandelbrotEngine.init], by norm_num [MandelbrotEngine.init]⟩,
    ⟨by norm_num [MandelbrotEngine.init], by norm_num [MandelbrotEngine.init]⟩,
    by norm_num, h.1, hcen.1, hcen.2⟩

/-! ### The render cache of generate -/

lemma generate_result_state (e : MandelbrotEngine) :
    (generate e).1.last_params = some (currentParams (generate e).1) ∧
      (generate e).1.cached_result = some (generate e).2 := by
  unfold generate
  split
  next p g hl hr =>
    split
    next hp =>
      constructor
      · simp only []
        rw [hl, hp]
      · exact hr
    next hp => exact ⟨rfl, rfl⟩
  next => exact ⟨rfl, rfl⟩
  next => exact ⟨rfl, rfl⟩

lemma generate_of_hit (e : MandelbrotEngine) (h : e.last_params = some (currentParams e))
    (g : ℕ → ℕ → ℤ) (hg : e.cached_result = some g) : generate e = (e, g) := by
  unfold generate
  rw [h, hg]
  simp

lemma generate_idem (e : MandelbrotEngine) :
    generate (generate e).1 = ((generate e).1, (generate e).2) := by
  obtain ⟨h1, h2⟩ := generate_result_state e
  exact generate_of_hit _ h1 _ h2

/-- Claim C7: in any state where the cache slots are consistent
(`last_params` and `cached_result` are `None` together — true initially and
preserved by every operation), a call to `generate` leaves `render_count`
unchanged exactly when the current parameter tuple equals the cached one
(exact equality); and a second `generate` with no intervening change never
recomputes: it keeps `render_count` and returns the same grid. -/
theorem c7_generate_cache (e : MandelbrotEngine)
    (hc : e.last_params = none ↔ e.cached_result = none) :
    ((generate e).1.render_count = e.render_count ↔
        e.last_params = some (currentParams e)) ∧
      (generate (generate e).1).1.render_count = (generate e).1.render_count ∧
      (generate (generate e).1).2 = (generate e).2 := by
  refine ⟨?_, by rw [generate_idem], by rw [generate_idem]⟩
  rcases hl : e.last_params with _ | p
  · have hmiss : generate e = generateMiss e := by
      unfold generate; rw [hl]
    rw [hmiss]
    simp [hl, generateMiss]
  · rcases hr : e.cached_result with _ | g
    · exact absurd (hc.2 hr) (by simp [hl])
    · by_cases hp : currentParams e = p
      · have hhit : generate e = (e, g) :=
          generate_of_hit e (by rw [hl, hp]) g hr
        rw [hhit]
        simp [hl, hp]
      · have hmiss : generate e = generateMiss e := by
          unfold generate; rw [hl, hr]; simp [hp]
        rw [hmiss]
        simp only [generateMiss]
        constructor
        · intro h; omega
        · intro h
          exact absurd (Option.some.inj h).symm hp

/-- Witness for `c7_generate_cache` at the freshly initialized 2×2
engine (both cache slots `None`). -/
theorem c7_generate_cache_witness :
    ((MandelbrotEngine.init 2 2).last_params = none ↔
        (MandelbrotEngine.init 2 2).cached_result = none) ∧
      (((generate (MandelbrotEngine.init 2 2)).1.render_count
            = (MandelbrotEngine.init 2 2).render_count ↔
          (MandelbrotEngine.init 2 2).last_params
            = some (currentParams (MandelbrotEngine.init 2 2))) ∧
        (generate (generate (MandelbrotEngine.init 2 2)).1).1.render_count
          = (generate (MandelbrotEngine.init 2 2)).1.render_count ∧
        (generate (generate (MandelbrotEngine.init 2 2)).1).2
          = (generate (MandelbrotEngine.init 2 2)).2) :=
  ⟨by simp [MandelbrotEngine.init],
   c7_generate_cache _ (by simp [MandelbrotEngine.init])⟩

/-! ### Adaptive iteration count -/

lemma thirty_logb_two_ge_nine : (9 : ℝ) ≤ 30 * Real.logb 10 2 := by
  have h10 : (0 : ℝ) < Real.log 10 := Real.log_pos (by norm_num)
  rw [Real.logb, mul_div_assoc']
  rw [le_div_iff₀ h10]
  have h1 : Real.log 1000 < Real.log 1024 := Real.log_lt_log (by norm_num) (by norm_num)
  have e1 : Real.log 1000 = 3 * Real.log 10 := by
    rw [show (1000 : ℝ) = 10 ^ (3 : ℕ) by norm_num, Real.log_pow]
    norm_num
  have e2 : Real.log 1024 = 10 * Real.log 2 := by
    rw [show (1024 : ℝ) = 2 ^ (10 : ℕ) by norm_num, Real.log_pow]
    norm_num
  nlinarith

lemma thirty_logb_two_lt_ten : 30 * Real.logb 10 2 < 10 := by
  have h10 : (0 : ℝ) < Real.log 10 := Real.log_pos (by norm_num)
  rw [Real.logb, mul_div_assoc']
  rw [div_lt_iff₀ h10]
  have h1 : Real.log 8 < Real.log 10 := Real.log_lt_log (by norm_num) (by norm_num)
  have e1 : Real.log 8 = 3 * Real.log 2 := by
    rw [show (8 : ℝ) = 2 ^ (3 : ℕ) by norm_num, Real.log_pow]
    norm_num
  nlinarith

lemma floor_fifty_plus_logb : ⌊(50 : ℝ) + Real.logb 10 2 * 30⌋ = 59 := by
  have h1 := thirty_logb_two_ge_nine
  have h2 := thirty_logb_two_lt_ten
  rw [Int.floor_eq_iff]
  constructor
  · push_cast; linarith
  · push_cast; linarith

/-- `adaptive_iterations(1.0) = int(50 + log10(2) * 30) = 59`, since
`9 ≤ 30·log10(2) < 10`. -/
lemma adaptive_iterations_one : adaptive_iterations 1 = 59 := by
  unfold adaptive_iterations pyint minIter maxMaxIter
  have harg : ((1 : ℚ) : ℝ) + 1 = 2 := by norm_num
  rw [harg]
  have h1 := thirty_logb_two_ge_nine
  rw [if_pos (by push_cast; linarith)]
  have hc : (((50 : ℤ) : ℝ)) = (50 : ℝ) := by norm_num
  rw [hc, floor_fifty_plus_logb]
  norm_num

lemma adaptive_iterations_eq_spec (z : ℚ) (hz : 0 ≤ z) :
    adaptive_iterations z = adaptiveIterationsSpec z := by
  have hlog : 0 ≤ Real.logb 10 ((z : ℝ) + 1) := by
    apply Real.logb_nonneg (by norm_num)
    have : (0 : ℝ) ≤ (z : ℝ) := by exact_mod_cast hz
    linarith
  have hfloor : (50 : ℤ) ≤ ⌊(50 : ℝ) + Real.logb 10 ((z : ℝ) + 1) * 30⌋ := by
    apply Int.le_floor.mpr
    push_cast
    nlinarith
  unfold adaptive_iterations adaptiveIterationsSpec pyint minIter maxMaxIter
  rw [if_pos (by push_cast; nlinarith)]
  have hc : (((50 : ℤ) : ℝ)) = (50 : ℝ) := by norm_num
  rw [hc]
  rw [max_eq_right (le_min hfloor (by norm_num))]

/-- Claim C3, counterexample: `adaptive_iterations(1.0)` equals 59
(`int(50 + log10(2)·30) = 50 + 9 = 59`, then `min(59, 2000) = 59`), not 50
as the claim states — the code has no lower clamp that would pull the
value down to `min_iter`. -/
theorem c3_adaptive_at_one_is_59_not_50 :
    adaptive_iterations 1 = 59 ∧ adaptive_iterations 1 ≠ 50 := by
  rw [adaptive_iterations_one]
  norm_num

/-- Claim C3, amended: for every `zoom ≥ 0` (the engine keeps
`zoom ≥ 0.1`), `adaptive_iterations(zoom)` equals
`clamp(50 + log10(zoom+1)·30, 50, 2000)` with the floor of the
intermediate value (the lower clamp is vacuous there); in particular
`adaptive_iterations(1.0) = 59`, not 50. -/
theorem c3_adaptive_iterations_formula :
    (∀ z : ℚ, 0 ≤ z → adaptive_iterations z = adaptiveIterationsSpec z) ∧
      adaptive_iterations 1 = 59 :=
  ⟨adaptive_iterations_eq_spec, adaptive_iterations_one⟩

/-- Witness for `c3_adaptive_iterations_formula` at `zoom = 1`. -/
theorem c3_adaptive_iterations_formula_witness :
    (0 : ℚ) ≤ 1 ∧ adaptive_iterations 1 = adaptiveIterationsSpec 1 :=
  ⟨by norm_num, c3_adaptive_iterations_formula.1 1 (by norm_num)⟩

/-- Claim C10: from the freshly initialized engine (`max_iter = 100`,
`zoom = 1`), `generate` computes the grid with
`actual_iter = min(max_iter, adaptive_iterations(zoom)) = min(100, 59) = 59`
rather than with the `max_iter` field: every entry is at most 59, an entry
equals 59 exactly when its loop did not escape (so non-divergent pixels
receive `adaptive_iterations(1.0) = 59 < 100`), while the cache key stored
in `last_params` is built from `max_iter = 100` itself. -/
theorem c10_generate_uses_adaptive_min (w h : ℕ) (_hw : 2 ≤ w) (_hh : 2 ≤ h) :
    (MandelbrotEngine.init w h).max_iter = 100 ∧
      adaptive_iterations (MandelbrotEngine.init w h).zoom = 59 ∧
      min (MandelbrotEngine.init w h).max_iter
          (adaptive_iterations (MandelbrotEngine.init w h).zoom) = 59 ∧
      (59 : ℤ) < (MandelbrotEngine.init w h).max_iter ∧
      (generate (MandelbrotEngine.init w h)).2
        = mandelbrot_calculation h w
            (get_bounds (MandelbrotEngine.init w h)).1
            (get_bounds (MandelbrotEngine.init w h)).2.1
            (get_bounds (MandelbrotEngine.init w h)).2.2.1
            (get_bounds (MandelbrotEngine.init w h)).2.2.2 59 ∧
      (∀ i j, (generate (MandelbrotEngine.init w h)).2 i j ≤ 59) ∧
      (∀ i j, (generate (MandelbrotEngine.init w h)).2 i j = 59 ↔
        ∀ n, mandelLoop
            (pixelCoordD (get_bounds (MandelbrotEngine.init w h)).1
                (get_bounds (MandelbrotEngine.init w h)).2.1 w j,
              pixelCoordD (get_bounds (MandelbrotEngine.init w h)).2.2.1
                (get_bounds (MandelbrotEngine.init w h)).2.2.2 h i)
            (59 : ℤ).toNat 0 (0, 0) ≠ .escaped n) ∧
      (generate (MandelbrotEngine.init w h)).1.last_params
        = some (currentParams (MandelbrotEngine.init w h)) := by
  have hz : (MandelbrotEngine.init w h).zoom = 1 := rfl
  have had : adaptive_iterations (MandelbrotEngine.init w h).zoom = 59 := by
    rw [hz]; exact adaptive_iterations_one
  have hgen : generate (MandelbrotEngine.init w h)
      = generateMiss (MandelbrotEngine.init w h) := rfl
  have hmin : min (MandelbrotEngine.init w h).max_iter
      (adaptive_iterations (MandelbrotEngine.init w h).zoom) = 59 := by
    rw [had]; norm_num [MandelbrotEngine.init]
  have hres : (generate (MandelbrotEngine.init w h)).2
      = mandelbrot_calculation h w
          (get_bounds (MandelbrotEngine.init w h)).1
          (get_bounds (MandelbrotEngine.init w h)).2.1
          (get_bounds (MandelbrotEngine.init w h)).2.2.1
          (get_bounds (MandelbrotEngine.init w h)).2.2.2 59 := by
    rw [hgen]
    show mandelbrot_calculation _ _ _ _ _ _
        (min (MandelbrotEngine.init w h).max_iter
          (adaptive_iterations (MandelbrotEngine.init w h).zoom)) = _
    rw [hmin]
    rfl
  refine ⟨rfl, had, hmin, by norm_num [MandelbrotEngine.init], hres, ?_, ?_, rfl⟩
  · intro i j
    rw [hres]
    exact mandelbrot_pixel_le _ _
  · intro i j
    rw [hres]
    exact mandelbrot_pixel_eq_iff _ _

/-- Witness for `c10_generate_uses_adaptive_min` at a 4×4 engine: its
conclusion holds with both dimension hypotheses discharged. -/
theorem c10_generate_uses_adaptive_min_witness :
    (2 ≤ 4 ∧ 2 ≤ 4) ∧
      ((MandelbrotEngine.init 4 4).max_iter = 100 ∧
        adaptive_iterations (MandelbrotEngine.init 4 4).zoom = 59 ∧
        min (MandelbrotEngine.init 4 4).max_iter
            (adaptive_iterations (MandelbrotEngine.init 4 4).zoom) = 59) :=
  ⟨⟨by norm_num, by norm_num⟩,
    ⟨(c10_generate_uses_adaptive_min 4 4 (by norm_num) (by norm_num)).1,
     (c10_generate_uses_adaptive_min 4 4 (by norm_num) (by norm_num)).2.1,
     (c10_generate_uses_adaptive_min 4 4 (by norm_num) (by norm_num)).2.2.1⟩⟩


/-! ### Palette channel bounds -/

lemma pyclamp_mem (v : ℤ) : 0 ≤ pyclamp v ∧ pyclamp v ≤ 255 := by
  unfold pyclamp
  omega

lemma pyint_nonneg_eq_floor (x : ℝ) (h : 0 ≤ x) : pyint x = ⌊x⌋ := by
  unfold pyint
  exact if_pos h

lemma pyint_mem_of_unit (c : ℝ) (h0 : 0 ≤ c) (h1 : c ≤ 1) :
    0 ≤ pyint (c * 255) ∧ pyint (c * 255) ≤ 255 := by
  rw [pyint_nonneg_eq_floor _ (by nlinarith)]
  constructor
  · exact Int.le_floor.mpr (by push_cast; nlinarith)
  · have : ⌊c * 255⌋ ≤ ⌊(255 : ℝ)⌋ := Int.floor_le_floor (by nlinarith)
    simpa using this

lemma pymod1_nonneg (x : ℝ) : 0 ≤ pymod1 x := by
  unfold pymod1
  have := Int.floor_le x
  linarith

lemma colorsysHsvToRgb_mem (h s v : ℝ) (hh : 0 ≤ h) (hs0 : 0 ≤ s) (hs1 : s ≤ 1)
    (hv0 : 0 ≤ v) (hv1 : v ≤ 1) :
    (0 ≤ (colorsysHsvToRgb h s v).1 ∧ (colorsysHsvToRgb h s v).1 ≤ 1) ∧
      (0 ≤ (colorsysHsvToRgb h s v).2.1 ∧ (colorsysHsvToRgb h s v).2.1 ≤ 1) ∧
      (0 ≤ (colorsysHsvToRgb h s v).2.2 ∧ (colorsysHsvToRgb h s v).2.2 ≤ 1) := by
  unfold colorsysHsvToRgb
  have hi : pyint (h * 6) = ⌊h * 6⌋ := pyint_nonneg_eq_floor _ (by linarith)
  have hf0 : 0 ≤ h * 6 - (⌊h * 6⌋ : ℝ) := by
    have := Int.floor_le (h * 6)
    linarith
  have hf1 : h * 6 - (⌊h * 6⌋ : ℝ) < 1 := by
    have := Int.lt_floor_add_one (h * 6)
    linarith
  dsimp only
  rw [hi]
  set f := h * 6 - (⌊h * 6⌋ : ℝ) with hfdef
  have hp : 0 ≤ v * (1 - s) ∧ v * (1 - s) ≤ 1 := by
    constructor
    · nlinarith
    · nlinarith
  have hq : 0 ≤ v * (1 - s * f) ∧ v * (1 - s * f) ≤ 1 := by
    constructor
    · nlinarith
    · nlinarith
  have ht : 0 ≤ v * (1 - s * (1 - f)) ∧ v * (1 - s * (1 - f)) ≤ 1 := by
    constructor
    · nlinarith
    · nlinarith
  split_ifs <;>
    refine ⟨⟨?_, ?_⟩, ⟨?_, ?_⟩, ⟨?_, ?_⟩⟩ <;>
      dsimp only <;>
      first
        | exact hv0
        | exact hv1
        | exact hp.1
        | exact hp.2
        | exact hq.1
        | exact hq.2
        | exact ht.1
        | exact ht.2

lemma hsv_to_rgb_mem (h s v : ℝ) (hh : 0 ≤ h) (hs0 : 0 ≤ s) (hs1 : s ≤ 1)
    (hv0 : 0 ≤ v) (hv1 : v ≤ 1) : inRGBRange (hsv_to_rgb h s v) := by
  obtain ⟨⟨a1, a2⟩, ⟨b1, b2⟩, ⟨c1, c2⟩⟩ := colorsysHsvToRgb_mem h s v hh hs0 hs1 hv0 hv1
  unfold hsv_to_rgb inRGBRange
  dsimp only
  obtain ⟨r1, r2⟩ := pyint_mem_of_unit _ a1 a2
  obtain ⟨g1, g2⟩ := pyint_mem_of_unit _ b1 b2
  obtain ⟨e1, e2⟩ := pyint_mem_of_unit _ c1 c2
  exact ⟨r1, r2, g1, g2, e1, e2⟩

lemma clamped_triple_mem (a b c : ℤ) : inRGBRange (pyclamp a, pyclamp b, pyclamp c) := by
  unfold inRGBRange pyclamp
  dsimp only
  omega

lemma ocean_color_mem (anim t intensity : ℝ) : inRGBRange (ocean_color anim t intensity) := by
  unfold ocean_color
  split_ifs <;> exact clamped_triple_mem _ _ _

lemma fire_color_mem (anim t intensity : ℝ) : inRGBRange (fire_color anim t intensity) := by
  unfold fire_color
  dsimp only
  split_ifs
  · exact clamped_triple_mem _ _ _
  · exact clamped_triple_mem _ _ _
  · exact clamped_triple_mem _ _ _
  · exact clamped_triple_mem _ _ _

lemma cosmic_color_mem (anim t intensity : ℝ) : inRGBRange (cosmic_color anim t intensity) := by
  unfold cosmic_color
  split_ifs <;> exact clamped_triple_mem _ _ _

lemma vintage_color_mem (anim t intensity : ℝ) : inRGBRange (vintage_color anim t intensity) :=
  clamped_triple_mem _ _ _

lemma ice_color_mem (anim t intensity : ℝ) : inRGBRange (ice_color anim t intensity) :=
  clamped_triple_mem _ _ _

lemma sunset_color_mem (anim t intensity : ℝ) : inRGBRange (sunset_color anim t intensity) := by
  unfold sunset_color
  split_ifs <;> exact clamped_triple_mem _ _ _

lemma matrix_color_mem (anim t intensity : ℝ) : inRGBRange (matrix_color anim t intensity) :=
  clamped_triple_mem _ _ _

lemma rainbow_color_mem (anim t intensity : ℝ) (hi0 : 0 ≤ intensity) (hi1 : intensity ≤ 1) :
    inRGBRange (rainbow_color anim t intensity) := by
  unfold rainbow_color
  apply hsv_to_rgb_mem
  · exact pymod1_nonneg _
  · have := Real.neg_one_le_sin (t * Real.pi * 4 + anim * 2)
    nlinarith
  · have := Real.sin_le_one (t * Real.pi * 4 + anim * 2)
    nlinarith
  · have := Real.neg_one_le_sin (t * Real.pi * 2)
    nlinarith
  · have h1 := Real.sin_le_one (t * Real.pi * 2)
    have h2 := Real.neg_one_le_sin (t * Real.pi * 2)
    nlinarith

lemma electric_color_mem (anim t intensity : ℝ) (ht0 : 0 ≤ t) (hi0 : 0 ≤ intensity) :
    inRGBRange (electric_color anim t intensity) := by
  unfold electric_color
  apply hsv_to_rgb_mem
  · exact pymod1_nonneg _
  · have := Real.neg_one_le_sin (t * Real.pi * 20 + anim * 15)
    apply le_min (by norm_num)
    nlinarith
  · exact min_le_left _ _
  · have := Real.neg_one_le_sin (t * Real.pi * 6 + anim * 10)
    apply le_min (by norm_num)
    nlinarith
  · exact min_le_left _ _

lemma neon_color_mem (anim t intensity : ℝ) (ht0 : 0 ≤ t) (hi0 : 0 ≤ intensity) :
    inRGBRange (neon_color anim t intensity) := by
  unfold neon_color
  apply hsv_to_rgb_mem
  · exact pymod1_nonneg _
  · norm_num
  · norm_num
  · have := Real.neg_one_le_sin (t * Real.pi * 8 + anim * 6)
    apply le_min (by norm_num)
    nlinarith
  · exact min_le_left _ _

/-- Claim C5: for every palette id in `{0..9}`, every `t ∈ [0,1]`, every
`intensity ∈ [0,1]` and every animation time, each channel of the RGB
triple produced by the selected palette function lies in `[0, 255]`. -/
theorem c5_palette_channels_in_range (pid : ℕ) (hpid : pid ≤ 9)
    (t intensity anim : ℝ) (ht0 : 0 ≤ t) (_ht1 : t ≤ 1)
    (hi0 : 0 ≤ intensity) (hi1 : intensity ≤ 1) :
    inRGBRange (paletteColor pid anim t intensity) := by
  interval_cases pid
  · exact rainbow_color_mem anim t intensity hi0 hi1
  · exact ocean_color_mem anim t intensity
  · exact fire_color_mem anim t intensity
  · exact electric_color_mem anim t intensity ht0 hi0
  · exact cosmic_color_mem anim t intensity
  · exact vintage_color_mem anim t intensity
  · exact neon_color_mem anim t intensity ht0 hi0
  · exact ice_color_mem anim t intensity
  · exact sunset_color_mem anim t intensity
  · exact matrix_color_mem anim t intensity

/-- Witness for `c5_palette_channels_in_range`: the electric palette
(`pid = 3`) at `t = 1/2`, `intensity = 1/2`, animation time `0`. -/
theorem c5_palette_channels_in_range_witness :
    ((3 : ℕ) ≤ 9 ∧ (0 : ℝ) ≤ 1 / 2 ∧ (1 / 2 : ℝ) ≤ 1) ∧
      inRGBRange (paletteColor 3 0 (1 / 2) (1 / 2)) :=
  ⟨⟨by norm_num, by norm_num, by norm_num⟩,
   c5_palette_channels_in_range 3 (by norm_num) (1 / 2) (1 / 2) 0
     (by norm_num) (by norm_num) (by norm_num) (by norm_num)⟩

/-- Claim C9: whenever `iterations >= max_iterations`, `get_color` returns
pure black `(0, 0, 0)`, for every palette id and animation time. -/
theorem c9_in_set_pixels_are_black (pid : ℕ) (anim : ℝ) (v m : ℤ) (h : m ≤ v) :
    get_color pid anim v m = (0, 0, 0) := by
  unfold get_color
  exact if_pos h

/-- Witness for `c9_in_set_pixels_are_black` at `v = m = 5`, palette 0,
animation time 0. -/
theorem c9_in_set_pixels_are_black_witness :
    (5 : ℤ) ≤ 5 ∧ get_color 0 0 5 5 = (0, 0, 0) :=
  ⟨le_refl 5, c9_in_set_pixels_are_black 0 0 5 5 (le_refl 5)⟩

end Mandelbrot
